import Mathlib

/-!
Verification of the APRS operating-mode controller: a shallow embedding of
`src/openrtx/src/rtx/OpMode_APRS.cpp` and proofs about it.

The controller object fields (`rfSqlOpen`, `sqlOpen`, `enterRx`, `makePkts`,
`rxAudioPath`, `txAudioPath`) are embedded as a `Mode` structure, the shared
`rtxStatus_t` record (the fields this file touches) as `RtxStatus`, and the
external collaborators (RF driver, audio-path arbiter, LEDs) as extra fields of
a `World` structure. Per-cycle external inputs (PTT, RSSI, digital-squelch
detection, the handles the audio-path arbiter would return, the current time)
are a `CycleIn` record; `update` is then a pure function `World → CycleIn →
World`, written block-for-block after `OpMode_APRS::update`.

Modelling notes, all forced by code that lives outside `src/`:
* `rssi_t` (a signal-strength value, header not in `src/`) is modelled from
  the spec as an integer on an RSSI-like scale; the arithmetic in the source
  (`-127 + (sqlLevel * 66) / 15`) is C `int` arithmetic either way.
* the audio-path arbiter (`audioPath_request` / `audioPath_release`) is
  modelled from the spec: a request returns a handle, the path is granted iff
  the handle is positive, and releasing a held handle frees the path. The
  per-direction "held" booleans `rxHeld` / `txHeld` live in `World`.
* successive RF driver calls inside one block (`radio_disableRtx` followed by
  `radio_enableRx`/`radio_enableTx`) are modelled by their net effect on the
  RF state.
-/

/-- The `opStatus` field of `rtxStatus_t`: `OFF`, `RX` or `TX`. -/
inductive OpStatus
  | OFF
  | RX
  | TX
deriving DecidableEq, Repr

/-- State of the RF front end, as driven by `radio_disableRtx`,
`radio_enableRx` and `radio_enableTx`. -/
inductive RfState
  | rfOff
  | rfRx
  | rfTx
deriving DecidableEq, Repr

/-- One APRS address record (`aprsAddress_t`): capped callsign plus SSID.
The `next` chain is represented by the enclosing list. -/
structure AprsAddress where
  addr : String
  ssid : Nat
deriving DecidableEq, Repr

/-- One APRS packet (`aprsPacket_t`): address chain, info payload, capture
timestamp. The `prev`/`next` queue links are represented by the enclosing
list. -/
structure AprsPacket where
  addresses : List AprsAddress
  info : String
  ts : Nat
deriving DecidableEq, Repr

/-- The fields of the shared `rtxStatus_t` record read or written by
`OpMode_APRS::update`. -/
structure RtxStatus where
  opStatus : OpStatus
  sqlLevel : Nat
  rxToneEn : Bool
  txDisable : Bool
  aprsRecv : Nat
  aprsSaved : Nat
  aprsPkts : List AprsPacket
deriving DecidableEq, Repr

/-- The member variables of the `OpMode_APRS` object. -/
structure Mode where
  rfSqlOpen : Bool
  sqlOpen : Bool
  enterRx : Bool
  makePkts : Bool
  rxAudioPath : Int
  txAudioPath : Int
deriving DecidableEq, Repr

/-- Controller state plus the collaborator state it drives: the shared status
record, the audio-path arbiter's per-direction grant state, the RF front end
and the two indicator LEDs. -/
structure World where
  mode : Mode
  status : RtxStatus
  rxHeld : Bool
  txHeld : Bool
  rf : RfState
  ledGreen : Bool
  ledRed : Bool
deriving DecidableEq, Repr

/-- External inputs sampled during one `update` cycle: PTT state, measured
RSSI, the digital (tone) squelch detection, the handles the audio-path
arbiter would return for an RX and a TX request made this cycle, and the
current time. -/
structure CycleIn where
  ptt : Bool
  rssi : Int
  digSql : Bool
  rxGrant : Int
  txGrant : Int
  now : Nat
deriving DecidableEq, Repr

/-- One placeholder test packet, from the generation loop in
`OpMode_APRS::update`: destination `APRS<i>` SSID 0, source `N2BP` SSID 7,
info `:Test packet <i>`, timestamped at creation. -/
def mkTestPacket (now i : Nat) : AprsPacket :=
  { addresses := [⟨"APRS" ++ toString i, 0⟩, ⟨"N2BP", 7⟩],
    info := ":Test packet " ++ toString i,
    ts := now }

/-- Modelled from the spec: `aprsPktsInsert` (declared in
`protocols/APRS/packet.h`, implementation not in `src/`) inserts a packet at
the head of the queue ("the original design appends at the head
consistently... append-to-front"). -/
def aprsPktsInsert (q : List AprsPacket) (p : AprsPacket) : List AprsPacket :=
  p :: q

/-- The ten placeholder packets produced by one run of the generation loop,
in queue order (the loop inserts packets 0..9 at the head, so packet 9 ends
up first). -/
def testPacketBatch (now : Nat) : List AprsPacket :=
  ((List.range 10).reverse).map (mkTestPacket now)

/-- The `makePkts` block of `OpMode_APRS::update`: on the first cycle after
`enable`, set the received/saved counters to 10 and insert ten placeholder
packets, then clear `makePkts`. -/
def pktGenStep (inp : CycleIn) (w : World) : World :=
  if w.mode.makePkts then
    { w with
      status := { w.status with
        aprsRecv := 10,
        aprsSaved := 10,
        aprsPkts := (List.range 10).foldl
          (fun q i => aprsPktsInsert q (mkTestPacket inp.now i))
          w.status.aprsPkts },
      mode := { w.mode with makePkts := false } }
  else w

/-- The derived squelch threshold:
`rssi_t squelch = -127 + (status->sqlLevel * 66) / 15;` (C `int` division). -/
def sqlThreshold (lvl : Nat) : Int :=
  -127 + ((lvl * 66) / 15 : Nat)

/-- The two-sided hysteresis update of the `rfSqlOpen` flag:
open when the RSSI exceeds `squelch + 1`, close when it drops below
`squelch - 1`, as the two sequential `if`s in the source. -/
def rfSqlStep (rfSqlOpen : Bool) (rssi squelch : Int) : Bool :=
  let o1 := if rfSqlOpen = false ∧ rssi > squelch + 1 then true else rfSqlOpen
  if o1 = true ∧ rssi < squelch - 1 then false else o1

/-- The RX-logic block of `OpMode_APRS::update`: squelch hysteresis, the
`rfSql`/`toneSql` flags, RX audio-path request/release; and the
`OFF && enterRx` branch that activates RX. -/
def rxStep (inp : CycleIn) (w : World) : World :=
  if w.status.opStatus = OpStatus.RX then
    let squelch := sqlThreshold w.status.sqlLevel
    let rfSqlOpen2 := rfSqlStep w.mode.rfSqlOpen inp.rssi squelch
    let rfSql : Bool := !w.status.rxToneEn && rfSqlOpen2
    let toneSql : Bool := w.status.rxToneEn && inp.digSql
    -- audioPath_request(SOURCE_RTX, SINK_SPK, PRIO_RX); sqlOpen set on grant
    let res1 :=
      if w.mode.sqlOpen = false ∧ (rfSql || toneSql) = true then
        (if inp.rxGrant > 0 then true else w.mode.sqlOpen,
         if inp.rxGrant > 0 then true else w.rxHeld,
         inp.rxGrant)
      else (w.mode.sqlOpen, w.rxHeld, w.mode.rxAudioPath)
    -- audioPath_release(rxAudioPath) when the effective squelch closed
    let res2 :=
      if res1.1 = true ∧ rfSql = false ∧ toneSql = false then (false, false)
      else (res1.1, res1.2.1)
    { w with
      mode := { w.mode with
        rfSqlOpen := rfSqlOpen2, sqlOpen := res2.1, rxAudioPath := res1.2.2 },
      rxHeld := res2.2 }
  else if w.status.opStatus = OpStatus.OFF ∧ w.mode.enterRx = true then
    { w with
      rf := RfState.rfRx,  -- radio_disableRtx(); radio_enableRx()
      status := { w.status with opStatus := OpStatus.RX },
      mode := { w.mode with enterRx := false } }
  else w

/-- The enter-TX block of `OpMode_APRS::update`: on PTT, when not already in
TX and TX is not disabled, release the RX audio path, reset the RF front end,
request the TX audio path (result stored but not checked), enable TX and set
the state to TX. -/
def txEnterStep (inp : CycleIn) (w : World) : World :=
  if inp.ptt = true ∧ w.status.opStatus ≠ OpStatus.TX ∧
      w.status.txDisable = false then
    { w with
      rxHeld := false,  -- audioPath_release(rxAudioPath)
      rf := RfState.rfTx,  -- radio_disableRtx(); radio_enableTx()
      mode := { w.mode with txAudioPath := inp.txGrant },
      txHeld := if inp.txGrant > 0 then true else w.txHeld,
      status := { w.status with opStatus := OpStatus.TX } }
  else w

/-- The exit-TX block of `OpMode_APRS::update`: on PTT release while in TX,
release the TX audio path, reset the RF front end, go to OFF, re-arm
`enterRx` and force `sqlOpen` false so squelch is re-detected. -/
def txExitStep (inp : CycleIn) (w : World) : World :=
  if inp.ptt = false ∧ w.status.opStatus = OpStatus.TX then
    { w with
      txHeld := false,  -- audioPath_release(txAudioPath)
      rf := RfState.rfOff,  -- radio_disableRtx()
      status := { w.status with opStatus := OpStatus.OFF },
      mode := { w.mode with enterRx := true, sqlOpen := false } }
  else w

/-- The LED-control switch at the end of `OpMode_APRS::update`. -/
def ledStep (inp : CycleIn) (w : World) : World :=
  match w.status.opStatus with
  | OpStatus.RX =>
    if inp.digSql then { w with ledGreen := true, ledRed := true }
    else if w.mode.rfSqlOpen then { w with ledGreen := true, ledRed := false }
    else { w with ledGreen := false, ledRed := false }
  | OpStatus.TX => { w with ledGreen := false, ledRed := true }
  | OpStatus.OFF => { w with ledGreen := false, ledRed := false }

/-- `OpMode_APRS::update`, one full cycle: packet generation, RX logic,
TX entry, TX exit, LED control (the terminal `sleepFor` is a pure delay). -/
def update (w : World) (inp : CycleIn) : World :=
  ledStep inp (txExitStep inp (txEnterStep inp (rxStep inp (pktGenStep inp w))))

/-- Iterated update cycles. -/
def run (w : World) (is : List CycleIn) : World :=
  is.foldl update w

/-- `OpMode_APRS::enable`: close squelch, arm RX entry and test-packet
generation. -/
def enable (w : World) : World :=
  { w with mode := { w.mode with
      rfSqlOpen := false, sqlOpen := false, enterRx := true,
      makePkts := true } }

/-- `OpMode_APRS::disable`: frees the queued packets (heap effect, see the
teardown trace model below), turns both LEDs off, releases both audio paths,
disables the RF front end and clears the squelch flags. It reads the status
through `rtx_getCurrentStatus()`, which returns a copy, and never writes the
shared record back: the shared `aprsPkts` head is untouched. -/
def disable (w : World) : World :=
  { w with
    ledGreen := false, ledRed := false,
    rxHeld := false, txHeld := false,
    rf := RfState.rfOff,
    mode := { w.mode with
      rfSqlOpen := false, sqlOpen := false, enterRx := false } }

/-- `OpMode_APRS::rxSquelchOpen`: returns the `sqlOpen` flag. -/
def rxSquelchOpen (w : World) : Bool :=
  w.mode.sqlOpen

/-- The effective squelch-open decision, written after the spec's words (for
the refinement comparison with the code's `rfSql || toneSql`): the digital
squelch signal when tone squelch is enabled, the hysteresis-updated RF
squelch flag otherwise. -/
def effectiveSql (w : World) (i : CycleIn) : Bool :=
  if w.status.rxToneEn then i.digSql
  else rfSqlStep w.mode.rfSqlOpen i.rssi (sqlThreshold w.status.sqlLevel)

/-- The audio-path part of the spec's invariant that the code actually
maintains: the two directions are never both held, and a held TX path implies
state TX. (The converse — state TX implies TX path held — fails, because the
TX path request's result is never checked.) -/
def AudioInv (w : World) : Prop :=
  ¬(w.rxHeld = true ∧ w.txHeld = true) ∧
  (w.txHeld = true → w.status.opStatus = OpStatus.TX)

/-! ### Heap-level model of the teardown loop in `disable`

`disable` frees the queue with
`for (aprsPacket_t *pkt = status.aprsPkts; pkt; pkt = pkt->next)
aprsPktFree(pkt);`: each iteration frees the node `pkt` points to and then
reads `pkt->next` out of the node it just freed. To settle the claim about
release/visit ordering this loop is modelled at the level of heap accesses:
nodes are numbered, `next` is the heap's next-pointer map, and the loop is
mapped to the exact sequence of free/read events it performs. -/

/-- One heap access of the teardown loop: releasing node `i`
(`aprsPktFree(pkt)`) or reading the `next` field of node `i`
(`pkt = pkt->next`). -/
inductive TdEvent
  | free (i : Nat)
  | readNext (i : Nat)
deriving DecidableEq, Repr

/-- Access trace of the teardown loop, starting from a head pointer, with
`fuel` bounding the traversal: each iteration frees the current node and then
reads its `next` pointer to advance. -/
def teardownTrace (next : Nat → Option Nat) : Option Nat → Nat → List TdEvent
  | none, _ => []
  | some _, 0 => []
  | some i, fuel + 1 =>
      TdEvent.free i :: TdEvent.readNext i :: teardownTrace next (next i) fuel

/-- A trace visits a node again after releasing it: some `free i` event is
followed by a later read of node `i`. -/
def visitsAfterFree (tr : List TdEvent) : Prop :=
  ∃ j k i, j < k ∧ tr.get? j = some (TdEvent.free i) ∧
    tr.get? k = some (TdEvent.readNext i)

/-! ### Concrete worlds and inputs for witnesses and counterexamples -/

/-- A freshly enabled controller: state OFF, squelch level 4, tone squelch
off, TX enabled, empty packet queue, nothing held. -/
def w0 : World :=
  { mode := { rfSqlOpen := false, sqlOpen := false, enterRx := true,
              makePkts := true, rxAudioPath := 0, txAudioPath := 0 },
    status := { opStatus := OpStatus.OFF, sqlLevel := 4, rxToneEn := false,
                txDisable := false, aprsRecv := 0, aprsSaved := 0,
                aprsPkts := [] },
    rxHeld := false, txHeld := false, rf := RfState.rfOff,
    ledGreen := false, ledRed := false }

/-- A controller in RX with the effective squelch open and the RX audio path
held. -/
def wRX : World :=
  { mode := { rfSqlOpen := true, sqlOpen := true, enterRx := false,
              makePkts := false, rxAudioPath := 3, txAudioPath := 0 },
    status := { opStatus := OpStatus.RX, sqlLevel := 4, rxToneEn := false,
                txDisable := false, aprsRecv := 0, aprsSaved := 0,
                aprsPkts := [] },
    rxHeld := true, txHeld := false, rf := RfState.rfRx,
    ledGreen := true, ledRed := false }

/-- A disabled-looking controller with one packet still queued. -/
def wQueued : World :=
  { w0 with status := { w0.status with
      aprsPkts := [mkTestPacket 0 0] } }

/-- Quiet cycle: PTT released, no signal, arbiter would refuse requests. -/
def iQuiet : CycleIn :=
  { ptt := false, rssi := -200, digSql := false, rxGrant := 0, txGrant := 0,
    now := 5 }

/-- PTT asserted, TX audio-path request would fail (non-positive handle). -/
def iPttFail : CycleIn :=
  { ptt := true, rssi := -200, digSql := false, rxGrant := 0, txGrant := 0,
    now := 6 }

/-- PTT asserted, TX audio-path request would be granted (handle 7). -/
def iPttGrant : CycleIn :=
  { ptt := true, rssi := -50, digSql := false, rxGrant := 0, txGrant := 7,
    now := 6 }

/-- PTT released, strong signal, RX audio-path request would be granted. -/
def iOpenGrant : CycleIn :=
  { ptt := false, rssi := -50, digSql := false, rxGrant := 5, txGrant := 0,
    now := 9 }

/-- PTT released, strong signal, RX audio-path request would fail. -/
def iOpenFail : CycleIn :=
  { ptt := false, rssi := -50, digSql := false, rxGrant := 0, txGrant := 0,
    now := 8 }

/-! ## Frame and behavior lemmas for the update phases -/

theorem ledStep_frame (i : CycleIn) (w : World) :
    (ledStep i w).mode = w.mode ∧ (ledStep i w).status = w.status ∧
    (ledStep i w).rxHeld = w.rxHeld ∧ (ledStep i w).txHeld = w.txHeld ∧
    (ledStep i w).rf = w.rf := by
  unfold ledStep
  cases w.status.opStatus <;> dsimp only <;> (repeat' split) <;> simp

theorem pktGenStep_frame (i : CycleIn) (w : World) :
    (pktGenStep i w).status.opStatus = w.status.opStatus ∧
    (pktGenStep i w).status.sqlLevel = w.status.sqlLevel ∧
    (pktGenStep i w).status.rxToneEn = w.status.rxToneEn ∧
    (pktGenStep i w).status.txDisable = w.status.txDisable ∧
    (pktGenStep i w).mode.rfSqlOpen = w.mode.rfSqlOpen ∧
    (pktGenStep i w).mode.sqlOpen = w.mode.sqlOpen ∧
    (pktGenStep i w).mode.enterRx = w.mode.enterRx ∧
    (pktGenStep i w).mode.rxAudioPath = w.mode.rxAudioPath ∧
    (pktGenStep i w).mode.txAudioPath = w.mode.txAudioPath ∧
    (pktGenStep i w).rxHeld = w.rxHeld ∧
    (pktGenStep i w).txHeld = w.txHeld ∧
    (pktGenStep i w).rf = w.rf ∧
    (pktGenStep i w).mode.makePkts = false := by
  unfold pktGenStep; split <;> simp_all

theorem pktGenStep_id (i : CycleIn) (w : World) (h : w.mode.makePkts = false) :
    pktGenStep i w = w := by
  unfold pktGenStep; rw [if_neg]; simp [h]

theorem pktGenStep_pkts (i : CycleIn) (w : World) (h : w.mode.makePkts = true) :
    (pktGenStep i w).status.aprsPkts =
      testPacketBatch i.now ++ w.status.aprsPkts := by
  unfold pktGenStep; rw [if_pos (by simp [h])]
  rfl

theorem rxStep_frame (i : CycleIn) (w : World) :
    (rxStep i w).txHeld = w.txHeld ∧
    (rxStep i w).mode.txAudioPath = w.mode.txAudioPath ∧
    (rxStep i w).mode.makePkts = w.mode.makePkts ∧
    (rxStep i w).status.sqlLevel = w.status.sqlLevel ∧
    (rxStep i w).status.rxToneEn = w.status.rxToneEn ∧
    (rxStep i w).status.txDisable = w.status.txDisable ∧
    (rxStep i w).status.aprsPkts = w.status.aprsPkts := by
  unfold rxStep; repeat' split <;> simp

theorem rxStep_opStatus_ne_TX (i : CycleIn) (w : World)
    (h : w.status.opStatus ≠ OpStatus.TX) :
    (rxStep i w).status.opStatus ≠ OpStatus.TX := by
  unfold rxStep; repeat' split <;> simp_all

theorem rxStep_status_of_RX (i : CycleIn) (w : World)
    (h : w.status.opStatus = OpStatus.RX) :
    (rxStep i w).status = w.status := by
  unfold rxStep; rw [if_pos h]

theorem rxStep_rfSqlOpen_of_RX (i : CycleIn) (w : World)
    (h : w.status.opStatus = OpStatus.RX) :
    (rxStep i w).mode.rfSqlOpen =
      rfSqlStep w.mode.rfSqlOpen i.rssi (sqlThreshold w.status.sqlLevel) := by
  unfold rxStep; rw [if_pos h]

theorem rxStep_of_OFF_enterRx (i : CycleIn) (w : World)
    (h : w.status.opStatus = OpStatus.OFF) (he : w.mode.enterRx = true) :
    rxStep i w =
      { w with rf := RfState.rfRx,
               status := { w.status with opStatus := OpStatus.RX },
               mode := { w.mode with enterRx := false } } := by
  unfold rxStep
  rw [if_neg (by simp [h]), if_pos ⟨h, he⟩]

theorem rxStep_id_of_TX (i : CycleIn) (w : World)
    (h : w.status.opStatus = OpStatus.TX) :
    rxStep i w = w := by
  unfold rxStep
  rw [if_neg (by simp [h]), if_neg (by simp [h])]

theorem txEnterStep_frame (i : CycleIn) (w : World) :
    (txEnterStep i w).mode.rfSqlOpen = w.mode.rfSqlOpen ∧
    (txEnterStep i w).mode.sqlOpen = w.mode.sqlOpen ∧
    (txEnterStep i w).mode.makePkts = w.mode.makePkts ∧
    (txEnterStep i w).mode.rxAudioPath = w.mode.rxAudioPath ∧
    (txEnterStep i w).mode.enterRx = w.mode.enterRx ∧
    (txEnterStep i w).status.sqlLevel = w.status.sqlLevel ∧
    (txEnterStep i w).status.rxToneEn = w.status.rxToneEn ∧
    (txEnterStep i w).status.txDisable = w.status.txDisable ∧
    (txEnterStep i w).status.aprsPkts = w.status.aprsPkts := by
  unfold txEnterStep; split <;> simp

theorem txEnterStep_fires (i : CycleIn) (w : World)
    (h1 : i.ptt = true) (h2 : w.status.opStatus ≠ OpStatus.TX)
    (h3 : w.status.txDisable = false) :
    txEnterStep i w =
      { w with rxHeld := false, rf := RfState.rfTx,
               mode := { w.mode with txAudioPath := i.txGrant },
               txHeld := if i.txGrant > 0 then true else w.txHeld,
               status := { w.status with opStatus := OpStatus.TX } } := by
  unfold txEnterStep; rw [if_pos ⟨h1, h2, h3⟩]

theorem txEnterStep_skip_TX (i : CycleIn) (w : World)
    (h : w.status.opStatus = OpStatus.TX) :
    txEnterStep i w = w := by
  unfold txEnterStep; rw [if_neg]; simp [h]

theorem txEnterStep_skip_noPtt (i : CycleIn) (w : World)
    (h : i.ptt = false) :
    txEnterStep i w = w := by
  unfold txEnterStep; rw [if_neg]; simp [h]

theorem txExitStep_fires (i : CycleIn) (w : World)
    (h1 : i.ptt = false) (h2 : w.status.opStatus = OpStatus.TX) :
    txExitStep i w =
      { w with txHeld := false, rf := RfState.rfOff,
               status := { w.status with opStatus := OpStatus.OFF },
               mode := { w.mode with enterRx := true, sqlOpen := false } } := by
  unfold txExitStep; rw [if_pos ⟨h1, h2⟩]

theorem txExitStep_skip_ptt (i : CycleIn) (w : World)
    (h : i.ptt = true) :
    txExitStep i w = w := by
  unfold txExitStep; rw [if_neg]; simp [h]

theorem txExitStep_skip_notTX (i : CycleIn) (w : World)
    (h : w.status.opStatus ≠ OpStatus.TX) :
    txExitStep i w = w := by
  unfold txExitStep; rw [if_neg]; simp [h]

theorem txEnterStep_skip_txDis (i : CycleIn) (w : World)
    (h : w.status.txDisable = true) :
    txEnterStep i w = w := by
  unfold txEnterStep; rw [if_neg]; simp [h]

theorem txExitStep_frame (i : CycleIn) (w : World) :
    (txExitStep i w).mode.rfSqlOpen = w.mode.rfSqlOpen ∧
    (txExitStep i w).mode.makePkts = w.mode.makePkts ∧
    (txExitStep i w).mode.rxAudioPath = w.mode.rxAudioPath ∧
    (txExitStep i w).mode.txAudioPath = w.mode.txAudioPath ∧
    (txExitStep i w).rxHeld = w.rxHeld ∧
    (txExitStep i w).status.sqlLevel = w.status.sqlLevel ∧
    (txExitStep i w).status.rxToneEn = w.status.rxToneEn ∧
    (txExitStep i w).status.txDisable = w.status.txDisable ∧
    (txExitStep i w).status.aprsPkts = w.status.aprsPkts := by
  unfold txExitStep; split <;> simp

/-! ## Hysteresis properties of the squelch flag update -/

theorem rfSqlStep_of_false (rssi thr : Int) :
    rfSqlStep false rssi thr = true ↔ rssi > thr + 1 := by
  unfold rfSqlStep
  split_ifs <;> simp_all <;> omega

theorem rfSqlStep_of_true (rssi thr : Int) :
    rfSqlStep true rssi thr = false ↔ rssi < thr - 1 := by
  unfold rfSqlStep
  split_ifs <;> simp_all <;> omega

theorem rfSqlStep_deadband (b : Bool) (rssi thr : Int)
    (h1 : thr - 1 < rssi) (h2 : rssi < thr + 1) :
    rfSqlStep b rssi thr = b := by
  unfold rfSqlStep
  split_ifs <;> simp_all <;> omega

/-! ## Whole-cycle projection lemmas -/

theorem update_TXentry_proj (w : World) (i : CycleIn)
    (hp : i.ptt = true) (hs : w.status.opStatus ≠ OpStatus.TX)
    (hd : w.status.txDisable = false) :
    (update w i).status.opStatus = OpStatus.TX ∧
    (update w i).rxHeld = false ∧
    (update w i).rf = RfState.rfTx ∧
    (update w i).mode.txAudioPath = i.txGrant ∧
    (update w i).txHeld =
      (if i.txGrant > 0 then true else (rxStep i (pktGenStep i w)).txHeld) ∧
    (update w i).mode.sqlOpen = (rxStep i (pktGenStep i w)).mode.sqlOpen ∧
    (update w i).mode.rfSqlOpen = (rxStep i (pktGenStep i w)).mode.rfSqlOpen ∧
    (update w i).mode.rxAudioPath =
      (rxStep i (pktGenStep i w)).mode.rxAudioPath := by
  unfold update
  have h2s : (rxStep i (pktGenStep i w)).status.opStatus ≠ OpStatus.TX :=
    rxStep_opStatus_ne_TX _ _ (by simp [pktGenStep_frame, hs])
  have h2d : (rxStep i (pktGenStep i w)).status.txDisable = false := by
    simp [rxStep_frame, pktGenStep_frame, hd]
  rw [txEnterStep_fires i _ hp h2s h2d, txExitStep_skip_ptt i _ hp]
  simp [ledStep_frame]

theorem update_TXexit_proj (w : World) (i : CycleIn)
    (hp : i.ptt = false) (hs : w.status.opStatus = OpStatus.TX) :
    (update w i).status.opStatus = OpStatus.OFF ∧
    (update w i).mode.enterRx = true ∧
    (update w i).mode.sqlOpen = false ∧
    (update w i).txHeld = false ∧
    (update w i).rf = RfState.rfOff := by
  unfold update
  have hTX1 : (pktGenStep i w).status.opStatus = OpStatus.TX := by
    simp [pktGenStep_frame, hs]
  rw [rxStep_id_of_TX i _ hTX1, txEnterStep_skip_TX i _ hTX1,
      txExitStep_fires i _ hp hTX1]
  simp [ledStep_frame]

theorem update_TXstay_proj (w : World) (i : CycleIn)
    (hp : i.ptt = true) (hs : w.status.opStatus = OpStatus.TX) :
    (update w i).status.opStatus = OpStatus.TX ∧
    (update w i).mode.sqlOpen = w.mode.sqlOpen ∧
    (update w i).txHeld = w.txHeld ∧
    (update w i).rxHeld = w.rxHeld := by
  unfold update
  have hTX1 : (pktGenStep i w).status.opStatus = OpStatus.TX := by
    simp [pktGenStep_frame, hs]
  rw [rxStep_id_of_TX i _ hTX1, txEnterStep_skip_TX i _ hTX1,
      txExitStep_skip_ptt i _ hp]
  simp [ledStep_frame, pktGenStep_frame, hs]

theorem update_OFFRX_proj (w : World) (i : CycleIn)
    (hp : i.ptt = false) (h0 : w.status.opStatus = OpStatus.OFF)
    (he : w.mode.enterRx = true) :
    (update w i).status.opStatus = OpStatus.RX ∧
    (update w i).status.txDisable = w.status.txDisable ∧
    (update w i).mode.enterRx = false ∧
    (update w i).mode.sqlOpen = w.mode.sqlOpen ∧
    (update w i).rxHeld = w.rxHeld ∧
    (update w i).txHeld = w.txHeld ∧
    (update w i).rf = RfState.rfRx := by
  unfold update
  have e1 := rxStep_of_OFF_enterRx i (pktGenStep i w)
    (by simp [pktGenStep_frame, h0]) (by simp [pktGenStep_frame, he])
  rw [e1, txEnterStep_skip_noPtt i _ hp, txExitStep_skip_notTX i _ (by simp)]
  simp [ledStep_frame, pktGenStep_frame]

theorem update_eq_rxOnly (w : World) (i : CycleIn)
    (hrx : w.status.opStatus = OpStatus.RX)
    (h : i.ptt = false ∨ w.status.txDisable = true) :
    update w i = ledStep i (rxStep i (pktGenStep i w)) := by
  unfold update
  have hP : (pktGenStep i w).status.opStatus = OpStatus.RX := by
    simp [pktGenStep_frame, hrx]
  have hRX2 : (rxStep i (pktGenStep i w)).status.opStatus = OpStatus.RX := by
    rw [rxStep_status_of_RX i _ hP]; exact hP
  rcases h with hp | hd
  · rw [txEnterStep_skip_noPtt i _ hp,
        txExitStep_skip_notTX i _ (by simp [hRX2])]
  · rw [txEnterStep_skip_txDis i _
          (by simp [rxStep_frame, pktGenStep_frame, hd]),
        txExitStep_skip_notTX i _ (by simp [hRX2])]

/-! ## Preservation of the audio-path invariant -/

theorem audioInv_pktGenStep (i : CycleIn) (w : World) (h : AudioInv w) :
    AudioInv (pktGenStep i w) := by
  unfold AudioInv at h ⊢
  simp only [pktGenStep_frame]
  exact h

theorem audioInv_rxStep (i : CycleIn) (w : World) (h : AudioInv w) :
    AudioInv (rxStep i w) := by
  unfold AudioInv at h ⊢
  unfold rxStep
  repeat' split
  all_goals simp_all

theorem audioInv_txEnterStep (i : CycleIn) (w : World) (h : AudioInv w) :
    AudioInv (txEnterStep i w) := by
  unfold AudioInv at h ⊢
  unfold txEnterStep
  repeat' split
  all_goals simp_all

theorem audioInv_txExitStep (i : CycleIn) (w : World) (h : AudioInv w) :
    AudioInv (txExitStep i w) := by
  unfold AudioInv at h ⊢
  unfold txExitStep
  repeat' split
  all_goals simp_all

theorem audioInv_ledStep (i : CycleIn) (w : World) (h : AudioInv w) :
    AudioInv (ledStep i w) := by
  unfold AudioInv at h ⊢
  simp only [ledStep_frame]
  exact h

theorem audioInv_update (w : World) (i : CycleIn) (h : AudioInv w) :
    AudioInv (update w i) :=
  audioInv_ledStep _ _ (audioInv_txExitStep _ _ (audioInv_txEnterStep _ _
    (audioInv_rxStep _ _ (audioInv_pktGenStep _ _ h))))

theorem audioInv_run (w : World) (is : List CycleIn) (h : AudioInv w) :
    AudioInv (run w is) := by
  induction is generalizing w with
  | nil => exact h
  | cons i is ih => exact ih (update w i) (audioInv_update w i h)

/-! ## Packet-queue behavior across cycles -/

theorem update_pkts (w : World) (i : CycleIn) :
    (update w i).status.aprsPkts = (pktGenStep i w).status.aprsPkts := by
  unfold update
  simp [ledStep_frame, txExitStep_frame, txEnterStep_frame, rxStep_frame]

theorem update_makePkts (w : World) (i : CycleIn) :
    (update w i).mode.makePkts = false := by
  unfold update
  simp [ledStep_frame, txExitStep_frame, txEnterStep_frame, rxStep_frame,
        pktGenStep_frame]

theorem run_pkts_of_noMake (w : World) (is : List CycleIn)
    (h : w.mode.makePkts = false) :
    (run w is).status.aprsPkts = w.status.aprsPkts := by
  induction is generalizing w with
  | nil => rfl
  | cons i is ih =>
    have h1 : (update w i).status.aprsPkts = w.status.aprsPkts := by
      rw [update_pkts, pktGenStep_id i w h]
    have h2 : (run (update w i) is).status.aprsPkts =
        (update w i).status.aprsPkts := ih _ (update_makePkts w i)
    exact h2.trans h1

/-! ## RX-cycle squelch and audio gating -/

theorem effectiveSql_pktGen (i : CycleIn) (w : World) :
    effectiveSql (pktGenStep i w) i = effectiveSql w i := by
  unfold effectiveSql
  simp [pktGenStep_frame]

theorem rxStep_gating_of_RX (i : CycleIn) (w : World)
    (hrx : w.status.opStatus = OpStatus.RX) :
    ((rxStep i w).mode.sqlOpen =
      (effectiveSql w i && (w.mode.sqlOpen || decide (i.rxGrant > 0)))) ∧
    ((rxStep i w).mode.rxAudioPath =
      if w.mode.sqlOpen = false ∧ effectiveSql w i = true then i.rxGrant
      else w.mode.rxAudioPath) ∧
    ((rxStep i w).rxHeld =
      if w.mode.sqlOpen = false ∧ effectiveSql w i = true ∧ i.rxGrant > 0
      then true
      else if w.mode.sqlOpen = true ∧ effectiveSql w i = false then false
      else w.rxHeld) := by
  unfold rxStep effectiveSql
  rw [if_pos hrx]
  by_cases ht : w.status.rxToneEn = true <;>
  by_cases hs : w.mode.sqlOpen = true <;>
  by_cases hd : i.digSql = true <;>
  by_cases hr : rfSqlStep w.mode.rfSqlOpen i.rssi
      (sqlThreshold w.status.sqlLevel) = true <;>
  by_cases hg : i.rxGrant > 0 <;>
  simp_all

theorem update_rfSqlOpen_of_RX (w : World) (i : CycleIn)
    (hrx : w.status.opStatus = OpStatus.RX) :
    (update w i).mode.rfSqlOpen =
      rfSqlStep w.mode.rfSqlOpen i.rssi (sqlThreshold w.status.sqlLevel) := by
  have hP : (pktGenStep i w).status.opStatus = OpStatus.RX := by
    simp [pktGenStep_frame, hrx]
  have hr : (rxStep i (pktGenStep i w)).mode.rfSqlOpen =
      rfSqlStep w.mode.rfSqlOpen i.rssi (sqlThreshold w.status.sqlLevel) := by
    rw [rxStep_rfSqlOpen_of_RX i _ hP]; simp [pktGenStep_frame]
  by_cases hp : i.ptt = true
  · by_cases hd : w.status.txDisable = true
    · rw [update_eq_rxOnly w i hrx (Or.inr hd)]; simp [ledStep_frame, hr]
    · have hd' : w.status.txDisable = false := by
        revert hd; cases w.status.txDisable <;> simp
      rw [(update_TXentry_proj w i hp (by simp [hrx]) hd').2.2.2.2.2.2.1, hr]
  · have hp' : i.ptt = false := by revert hp; cases i.ptt <;> simp
    rw [update_eq_rxOnly w i hrx (Or.inl hp')]; simp [ledStep_frame, hr]

theorem update_rxProj_of_RX (w : World) (i : CycleIn)
    (hrx : w.status.opStatus = OpStatus.RX) :
    (update w i).mode.sqlOpen = (rxStep i (pktGenStep i w)).mode.sqlOpen ∧
    (update w i).mode.rxAudioPath =
      (rxStep i (pktGenStep i w)).mode.rxAudioPath ∧
    ((update w i).rxHeld = (rxStep i (pktGenStep i w)).rxHeld ∨
      (update w i).rxHeld = false) := by
  by_cases hp : i.ptt = true
  · by_cases hd : w.status.txDisable = true
    · rw [update_eq_rxOnly w i hrx (Or.inr hd)]
      exact ⟨by simp [ledStep_frame], by simp [ledStep_frame],
        Or.inl (by simp [ledStep_frame])⟩
    · have hd' : w.status.txDisable = false := by
        revert hd; cases w.status.txDisable <;> simp
      have h := update_TXentry_proj w i hp (by simp [hrx]) hd'
      exact ⟨h.2.2.2.2.2.1, h.2.2.2.2.2.2.2, Or.inr h.2.1⟩
  · have hp' : i.ptt = false := by revert hp; cases i.ptt <;> simp
    rw [update_eq_rxOnly w i hrx (Or.inl hp')]
    exact ⟨by simp [ledStep_frame], by simp [ledStep_frame],
      Or.inl (by simp [ledStep_frame])⟩

theorem update_gating_of_RX (w : World) (i : CycleIn)
    (hrx : w.status.opStatus = OpStatus.RX) :
    (update w i).mode.sqlOpen =
      (effectiveSql w i && (w.mode.sqlOpen || decide (i.rxGrant > 0))) ∧
    (update w i).mode.rxAudioPath =
      (if w.mode.sqlOpen = false ∧ effectiveSql w i = true then i.rxGrant
       else w.mode.rxAudioPath) ∧
    ((update w i).rxHeld =
      (if w.mode.sqlOpen = false ∧ effectiveSql w i = true ∧ i.rxGrant > 0
       then true
       else if w.mode.sqlOpen = true ∧ effectiveSql w i = false then false
       else w.rxHeld) ∨
      (update w i).rxHeld = false) := by
  have hP : (pktGenStep i w).status.opStatus = OpStatus.RX := by
    simp [pktGenStep_frame, hrx]
  have hg := rxStep_gating_of_RX i (pktGenStep i w) hP
  have hpr := update_rxProj_of_RX w i hrx
  have hE := effectiveSql_pktGen i w
  have hM : (pktGenStep i w).mode.sqlOpen = w.mode.sqlOpen :=
    (pktGenStep_frame i w).2.2.2.2.2.1
  have hA : (pktGenStep i w).mode.rxAudioPath = w.mode.rxAudioPath :=
    (pktGenStep_frame i w).2.2.2.2.2.2.2.1
  have hH : (pktGenStep i w).rxHeld = w.rxHeld :=
    (pktGenStep_frame i w).2.2.2.2.2.2.2.2.2.1
  refine ⟨?_, ?_, ?_⟩
  · rw [hpr.1, hg.1, hE, hM]
  · rw [hpr.2.1, hg.2.1, hE, hM, hA]
  · rcases hpr.2.2 with h | h
    · exact Or.inl (by rw [h, hg.2.2, hE, hM, hH])
    · exact Or.inr h

theorem update_opStatus_RX_stay (w : World) (i : CycleIn)
    (hrx : w.status.opStatus = OpStatus.RX) (hp : i.ptt = false) :
    (update w i).status.opStatus = OpStatus.RX := by
  rw [update_eq_rxOnly w i hrx (Or.inl hp)]
  have hP : (pktGenStep i w).status.opStatus = OpStatus.RX := by
    simp [pktGenStep_frame, hrx]
  have := rxStep_status_of_RX i (pktGenStep i w) hP
  simp [ledStep_frame, this, hP]

/-! ## Claims -/

/-- C1: in any update cycle where push-to-talk is asserted, the state is not
TX and transmit is not disabled, the controller — regardless of the squelch
decision or signal strength — releases the RX audio path, drives the RF front
end to transmit, requests the TX audio path (storing the arbiter's reply,
the path being granted when it is positive) and sets the state to TX, within
that same cycle. -/
theorem C1_tx_preempts_rx (w : World) (i : CycleIn)
    (hp : i.ptt = true) (hs : w.status.opStatus ≠ OpStatus.TX)
    (hd : w.status.txDisable = false) :
    (update w i).status.opStatus = OpStatus.TX ∧
    (update w i).rxHeld = false ∧
    (update w i).rf = RfState.rfTx ∧
    (update w i).mode.txAudioPath = i.txGrant ∧
    (i.txGrant > 0 → (update w i).txHeld = true) := by
  have h := update_TXentry_proj w i hp hs hd
  exact ⟨h.1, h.2.1, h.2.2.1, h.2.2.2.1,
    fun hg => by rw [h.2.2.2.2.1, if_pos hg]⟩

/-- Witness for C1 at a concrete enabled world and a PTT cycle whose TX
audio-path request is granted. -/
theorem C1_witness :
    (update w0 iPttGrant).status.opStatus = OpStatus.TX ∧
    (update w0 iPttGrant).rxHeld = false ∧
    (update w0 iPttGrant).rf = RfState.rfTx ∧
    (update w0 iPttGrant).mode.txAudioPath = iPttGrant.txGrant ∧
    (iPttGrant.txGrant > 0 → (update w0 iPttGrant).txHeld = true) :=
  C1_tx_preempts_rx w0 iPttGrant rfl (by decide) rfl

/-- C2 counterexample: the claimed biconditional "state is TX iff the TX
audio path is held" fails on a reachable trace. From a freshly enabled world,
one quiet cycle enters RX; a PTT cycle whose TX audio-path request fails
(handle 0) still sets the state to TX while neither audio path is held,
because the request's result is never checked. -/
theorem C2_counterexample :
    (run w0 [iQuiet, iPttFail]).status.opStatus = OpStatus.TX ∧
    (run w0 [iQuiet, iPttFail]).txHeld = false ∧
    (run w0 [iQuiet, iPttFail]).rxHeld = false := by decide

/-- C2 (amended): at every point of every sequence of update cycles starting
from a state satisfying the audio invariant, at most one of the RX and TX
audio paths is held, and if the TX audio path is held then the state is TX.
(The converse direction of the claimed biconditional — state TX implies TX
path held — is refuted by the counterexample: a failed TX path request still
sets the state to TX.) -/
theorem C2_audio_invariant (w : World) (is : List CycleIn) (h : AudioInv w) :
    ¬((run w is).rxHeld = true ∧ (run w is).txHeld = true) ∧
    ((run w is).txHeld = true → (run w is).status.opStatus = OpStatus.TX) :=
  audioInv_run w is h

/-- Witness for C2 on a concrete two-cycle trace from the enabled world. -/
theorem C2_witness :
    AudioInv w0 ∧
    (¬((run w0 [iQuiet, iPttGrant]).rxHeld = true ∧
        (run w0 [iQuiet, iPttGrant]).txHeld = true) ∧
     ((run w0 [iQuiet, iPttGrant]).txHeld = true →
        (run w0 [iQuiet, iPttGrant]).status.opStatus = OpStatus.TX)) :=
  ⟨⟨by decide, fun h => absurd h (by decide)⟩,
   C2_audio_invariant w0 [iQuiet, iPttGrant]
     ⟨by decide, fun h => absurd h (by decide)⟩⟩

/-- C3: starting from OFF with PTT unasserted and the enter-RX flag set, one
cycle yields RX; a following cycle with PTT asserted yields TX; a following
cycle with PTT released yields OFF with the enter-RX flag re-armed and the
squelch-open flag forced false. -/
theorem C3_off_rx_tx_off (w : World) (i1 i2 i3 : CycleIn)
    (h0 : w.status.opStatus = OpStatus.OFF) (he : w.mode.enterRx = true)
    (hd : w.status.txDisable = false)
    (hp1 : i1.ptt = false) (hp2 : i2.ptt = true) (hp3 : i3.ptt = false) :
    (update w i1).status.opStatus = OpStatus.RX ∧
    (update (update w i1) i2).status.opStatus = OpStatus.TX ∧
    (update (update (update w i1) i2) i3).status.opStatus = OpStatus.OFF ∧
    (update (update (update w i1) i2) i3).mode.enterRx = true ∧
    (update (update (update w i1) i2) i3).mode.sqlOpen = false := by
  have s1 := update_OFFRX_proj w i1 hp1 h0 he
  have h1td : (update w i1).status.txDisable = false := s1.2.1.trans hd
  have s2 := update_TXentry_proj (update w i1) i2 hp2 (by simp [s1.1]) h1td
  have s3 := update_TXexit_proj (update (update w i1) i2) i3 hp3 s2.1
  exact ⟨s1.1, s2.1, s3.1, s3.2.1, s3.2.2.1⟩

/-- Witness for C3 on the concrete OFF→RX→TX→OFF trace. -/
theorem C3_witness :
    (update w0 iQuiet).status.opStatus = OpStatus.RX ∧
    (update (update w0 iQuiet) iPttGrant).status.opStatus = OpStatus.TX ∧
    (update (update (update w0 iQuiet) iPttGrant) iQuiet).status.opStatus =
      OpStatus.OFF ∧
    (update (update (update w0 iQuiet) iPttGrant) iQuiet).mode.enterRx =
      true ∧
    (update (update (update w0 iQuiet) iPttGrant) iQuiet).mode.sqlOpen =
      false :=
  C3_off_rx_tx_off w0 iQuiet iPttGrant iQuiet rfl rfl rfl rfl rfl rfl

/-- C4: in every RX-mode update cycle, the RF-squelch-open flag flips from
false to true exactly when the RSSI strictly exceeds `threshold + 1`, flips
from true to false exactly when the RSSI is strictly below `threshold - 1`,
and for any RSSI strictly between `threshold - 1` and `threshold + 1` it is
left unchanged. -/
theorem C4_hysteresis (w : World) (i : CycleIn)
    (hrx : w.status.opStatus = OpStatus.RX) :
    (w.mode.rfSqlOpen = false →
      ((update w i).mode.rfSqlOpen = true ↔
        i.rssi > sqlThreshold w.status.sqlLevel + 1)) ∧
    (w.mode.rfSqlOpen = true →
      ((update w i).mode.rfSqlOpen = false ↔
        i.rssi < sqlThreshold w.status.sqlLevel - 1)) ∧
    (sqlThreshold w.status.sqlLevel - 1 < i.rssi →
      i.rssi < sqlThreshold w.status.sqlLevel + 1 →
      (update w i).mode.rfSqlOpen = w.mode.rfSqlOpen) := by
  rw [update_rfSqlOpen_of_RX w i hrx]
  refine ⟨fun hf => ?_, fun ht => ?_,
    fun h1 h2 => rfSqlStep_deadband _ _ _ h1 h2⟩
  · rw [hf]; exact rfSqlStep_of_false _ _
  · rw [ht]; exact rfSqlStep_of_true _ _

/-- Witness for C4 at a concrete RX world and input. -/
theorem C4_witness :
    (wRX.mode.rfSqlOpen = false →
      ((update wRX iOpenGrant).mode.rfSqlOpen = true ↔
        iOpenGrant.rssi > sqlThreshold wRX.status.sqlLevel + 1)) ∧
    (wRX.mode.rfSqlOpen = true →
      ((update wRX iOpenGrant).mode.rfSqlOpen = false ↔
        iOpenGrant.rssi < sqlThreshold wRX.status.sqlLevel - 1)) ∧
    (sqlThreshold wRX.status.sqlLevel - 1 < iOpenGrant.rssi →
      iOpenGrant.rssi < sqlThreshold wRX.status.sqlLevel + 1 →
      (update wRX iOpenGrant).mode.rfSqlOpen = wRX.mode.rfSqlOpen) :=
  C4_hysteresis wRX iOpenGrant rfl

/-- C5: for every squelch level 0–15 the derived threshold equals
`-127 + (level * 66) / 15` in integer arithmetic, is monotonically
non-decreasing in the level, and lies within `[-127, -61]`. -/
theorem C5_threshold : ∀ l m : Fin 16, l ≤ m →
    sqlThreshold l.val = -127 + (((l.val * 66) / 15 : Nat) : Int) ∧
    sqlThreshold l.val ≤ sqlThreshold m.val ∧
    -127 ≤ sqlThreshold l.val ∧ sqlThreshold l.val ≤ -61 := by decide

/-- Witness for C5 at levels 3 and 7. -/
theorem C5_witness :
    sqlThreshold (3 : Fin 16).val =
      -127 + ((((3 : Fin 16).val * 66) / 15 : Nat) : Int) ∧
    sqlThreshold (3 : Fin 16).val ≤ sqlThreshold (7 : Fin 16).val ∧
    -127 ≤ sqlThreshold (3 : Fin 16).val ∧
    sqlThreshold (3 : Fin 16).val ≤ -61 :=
  C5_threshold 3 7 (by decide)

/-- C6: in every RX-mode update cycle the effective squelch-open decision is
the digital squelch signal when tone squelch is enabled and the
hysteresis-maintained RF-squelch flag otherwise (the RF flag being updated
either way, first conjunct); when the effective decision is open and the RX
path is not held, the path is requested — the arbiter's reply is stored and
the open flag set exactly when the request is granted; when the decision is
closed while the path is held, the path is released in the same cycle. -/
theorem C6_effective_decision (w : World) (i : CycleIn)
    (hrx : w.status.opStatus = OpStatus.RX) :
    (update w i).mode.rfSqlOpen =
      rfSqlStep w.mode.rfSqlOpen i.rssi (sqlThreshold w.status.sqlLevel) ∧
    (w.mode.sqlOpen = false → effectiveSql w i = true →
      (update w i).mode.rxAudioPath = i.rxGrant ∧
      ((update w i).mode.sqlOpen = true ↔ i.rxGrant > 0)) ∧
    (w.mode.sqlOpen = true → effectiveSql w i = false →
      (update w i).mode.sqlOpen = false ∧ (update w i).rxHeld = false) := by
  have hg := update_gating_of_RX w i hrx
  refine ⟨update_rfSqlOpen_of_RX w i hrx,
    fun hso heff => ⟨?_, ?_⟩, fun hso heff => ⟨?_, ?_⟩⟩
  · rw [hg.2.1, if_pos ⟨hso, heff⟩]
  · rw [hg.1, heff, hso]; simp
  · rw [hg.1, heff]; simp
  · rcases hg.2.2 with h | h
    · rw [h, if_neg (by simp [hso]), if_pos ⟨hso, heff⟩]
    · exact h

/-- Witness for C6 at a concrete RX world with the path held and the
squelch closing. -/
theorem C6_witness :
    (update wRX iQuiet).mode.rfSqlOpen =
      rfSqlStep wRX.mode.rfSqlOpen iQuiet.rssi
        (sqlThreshold wRX.status.sqlLevel) ∧
    (wRX.mode.sqlOpen = false → effectiveSql wRX iQuiet = true →
      (update wRX iQuiet).mode.rxAudioPath = iQuiet.rxGrant ∧
      ((update wRX iQuiet).mode.sqlOpen = true ↔ iQuiet.rxGrant > 0)) ∧
    (wRX.mode.sqlOpen = true → effectiveSql wRX iQuiet = false →
      (update wRX iQuiet).mode.sqlOpen = false ∧
      (update wRX iQuiet).rxHeld = false) :=
  C6_effective_decision wRX iQuiet rfl

/-- C7 counterexample: a failed TX audio-path request is not treated as "not
granted": with the arbiter refusing the TX request (handle 0), the controller
still activates RF transmit and sets the state to TX, and the request is not
retried on the next cycle — the state already being TX blocks re-entry even
when the arbiter would now grant a handle. -/
theorem C7_counterexample :
    (run w0 [iQuiet, iPttFail]).rf = RfState.rfTx ∧
    (run w0 [iQuiet, iPttFail]).status.opStatus = OpStatus.TX ∧
    (run w0 [iQuiet, iPttFail]).txHeld = false ∧
    (run w0 [iQuiet, iPttFail, iPttGrant]).txHeld = false ∧
    (run w0 [iQuiet, iPttFail, iPttGrant]).mode.txAudioPath = 0 := by decide

/-- C7 (amended): for RX audio-path requests the code does treat a
non-positive result as "not granted": the `sqlOpen` flag stays false, and on
a later RX cycle in which the effective squelch is still open the request is
repeated and succeeds once the arbiter grants a positive handle. (For the TX
audio-path request the claim fails, see the counterexample: its result is
never checked.) -/
theorem C7_rx_request_failure (w : World) (i j : CycleIn)
    (hrx : w.status.opStatus = OpStatus.RX)
    (hso : w.mode.sqlOpen = false)
    (hg : i.rxGrant ≤ 0) :
    (update w i).mode.sqlOpen = false ∧
    (i.ptt = false →
      (update w i).status.opStatus = OpStatus.RX ∧
      (j.ptt = false → effectiveSql (update w i) j = true →
        j.rxGrant > 0 →
        (update (update w i) j).mode.sqlOpen = true)) := by
  have hng : ¬(i.rxGrant > 0) := by omega
  constructor
  · rw [(update_gating_of_RX w i hrx).1, hso]
    simp [hng]
  · intro hp
    have h1rx := update_opStatus_RX_stay w i hrx hp
    refine ⟨h1rx, fun hpj heff hgj => ?_⟩
    rw [(update_gating_of_RX (update w i) j h1rx).1, heff]
    simp [hgj]

/-- Witness for C7 on a concrete RX trace: a refused request leaves the flag
false, and the repeated request succeeds next cycle. -/
theorem C7_witness :
    (update (update w0 iQuiet) iOpenFail).mode.sqlOpen = false ∧
    (iOpenFail.ptt = false →
      (update (update w0 iQuiet) iOpenFail).status.opStatus = OpStatus.RX ∧
      (iOpenGrant.ptt = false →
        effectiveSql (update (update w0 iQuiet) iOpenFail) iOpenGrant =
          true →
        iOpenGrant.rxGrant > 0 →
        (update (update (update w0 iQuiet) iOpenFail)
          iOpenGrant).mode.sqlOpen = true)) :=
  C7_rx_request_failure (update w0 iQuiet) iOpenFail iOpenGrant
    (by decide) (by decide) (by decide)

/-- C8 (code bug): the teardown loop in `disable` frees each node and then
reads its `next` field out of the node it just freed. On a two-node queue
the access trace frees node 0 and immediately reads node 0 again — a
released node is visited again in the same teardown pass — and `disable`
operates on a local copy of the status record, so the shared queue head is
not cleared. -/
theorem C8_teardown_bug :
    teardownTrace (fun n => if n = 0 then some 1 else none) (some 0) 2 =
      [TdEvent.free 0, TdEvent.readNext 0, TdEvent.free 1,
       TdEvent.readNext 1] ∧
    visitsAfterFree
      (teardownTrace (fun n => if n = 0 then some 1 else none)
        (some 0) 2) ∧
    (disable wQueued).status.aprsPkts = wQueued.status.aprsPkts ∧
    wQueued.status.aprsPkts ≠ [] :=
  ⟨rfl, ⟨0, 1, 0, by decide, rfl, rfl⟩, rfl, by decide⟩

/-- C9: the placeholder-packet generation runs in exactly one update call per
enable cycle: the first update after `enable` prepends precisely the batch of
ten deterministic placeholder packets, each timestamped with that cycle's
clock, and any sequence of later updates before the next enable adds none. -/
theorem C9_generation_once (w : World) (i : CycleIn) (is : List CycleIn) :
    (update (enable w) i).status.aprsPkts =
      testPacketBatch i.now ++ w.status.aprsPkts ∧
    (update (enable w) i).status.aprsPkts.length =
      w.status.aprsPkts.length + 10 ∧
    (run (update (enable w) i) is).status.aprsPkts =
      (update (enable w) i).status.aprsPkts := by
  have h1 : (update (enable w) i).status.aprsPkts =
      testPacketBatch i.now ++ w.status.aprsPkts := by
    rw [update_pkts, pktGenStep_pkts i (enable w) rfl]
    rfl
  refine ⟨h1, ?_, run_pkts_of_noMake _ is (update_makePkts _ i)⟩
  rw [h1]
  simp [testPacketBatch]
  omega

/-- C10: the enter-TX transition leaves the squelch-open flag unchanged: if
the pre-empting cycle's RX evaluation leaves `sqlOpen` true, then after PTT
pre-empts RX the state is TX, the RX audio path is released, yet
`rxSquelchOpen` still returns true; it keeps returning true on every further
TX cycle while PTT is held, and the flag is cleared exactly when PTT is
released and the state returns to OFF. -/
theorem C10_txEntry_keeps_sqlOpen (w : World) (i : CycleIn)
    (hrx : w.status.opStatus = OpStatus.RX)
    (hd : w.status.txDisable = false)
    (hp : i.ptt = true)
    (hso : (rxStep i (pktGenStep i w)).mode.sqlOpen = true) :
    (update w i).status.opStatus = OpStatus.TX ∧
    (update w i).rxHeld = false ∧
    rxSquelchOpen (update w i) = true ∧
    (∀ j, j.ptt = true →
      rxSquelchOpen (update (update w i) j) = true ∧
      (update (update w i) j).status.opStatus = OpStatus.TX) ∧
    (∀ j, j.ptt = false →
      (update (update w i) j).mode.sqlOpen = false ∧
      (update (update w i) j).status.opStatus = OpStatus.OFF) := by
  have h := update_TXentry_proj w i hp (by simp [hrx]) hd
  have hsq : rxSquelchOpen (update w i) = true := by
    unfold rxSquelchOpen; rw [h.2.2.2.2.2.1, hso]
  refine ⟨h.1, h.2.1, hsq, fun j hpj => ?_, fun j hpj => ?_⟩
  · have hst := update_TXstay_proj (update w i) j hpj h.1
    exact ⟨by unfold rxSquelchOpen; rw [hst.2.1]; exact hsq, hst.1⟩
  · have hex := update_TXexit_proj (update w i) j hpj h.1
    exact ⟨hex.2.2.1, hex.1⟩

/-- Witness for C10: concrete pre-emption of an open-squelch RX state,
checked one TX-hold cycle and one release cycle further. -/
theorem C10_witness :
    (update wRX iPttGrant).status.opStatus = OpStatus.TX ∧
    (update wRX iPttGrant).rxHeld = false ∧
    rxSquelchOpen (update wRX iPttGrant) = true ∧
    rxSquelchOpen (update (update wRX iPttGrant) iPttFail) = true ∧
    (update (update wRX iPttGrant) iQuiet).mode.sqlOpen = false ∧
    (update (update wRX iPttGrant) iQuiet).status.opStatus =
      OpStatus.OFF :=
  have h := C10_txEntry_keeps_sqlOpen wRX iPttGrant rfl rfl rfl (by decide)
  ⟨h.1, h.2.1, h.2.2.1, (h.2.2.2.1 iPttFail rfl).1,
   (h.2.2.2.2 iQuiet rfl).1, (h.2.2.2.2 iQuiet rfl).2⟩
